import Mathlib

/-!
# Verification of the flow Action Runner (`flow/flowinst/action.go`)

A shallow embedding of the `flowinst` package's `FlowAction`: construction
(`NewFlowAction`), the synchronous part of `Run` (operation dispatch,
validation, instance acquisition, attribute application), and the spawned
step-loop task (bounded `DoStep` loop, conditional checkpoint recording,
result delivery, deferred `Done`).

The `Instance` state machine itself lives outside the embedded file; the
embedding treats it at its interface: an opaque behaviour oracle giving, for
each number of completed steps, the instance status and the outcome of the
next `DoStep` call (`none` models a Go panic inside `DoStep`).  Effects on
collaborators (instance operations, recorder calls, result-handler calls)
are captured as event traces.
-/

namespace Flogo

/-- A trigger attribute `{Name, Type, Value}` as yielded by
`trigger.FromContext`. -/
structure TriggerAttr where
  name : String
  tpe : String
  value : String
deriving DecidableEq, Repr

/-- Modelled from the spec: the behaviour an Instance derives from its
(opaque) flow definition.  `status k` is the value of `Status()` after `k`
completed steps; `stepOutcome k` is the result of the `(k+1)`-th `DoStep`
call (`some hasWork`), with `none` modelling an unexpected fault (Go panic)
raised inside that call. -/
structure FlowBehavior where
  status : Nat → Nat
  stepOutcome : Nat → Option Bool

/-- Modelled from the spec: the Instance's observable surface — its
identifier, originating flow URI, and step behaviour.  (The task-graph
internals of `instance.go` are outside the embedded core.) -/
structure Instance where
  id : String
  flowURI : String
  beh : FlowBehavior

/-- Modelled from the spec: `StatusCompleted`, the terminal value of the
ordered status enum.  Only its ordinal comparison with the current status
matters to the embedded code. -/
def StatusCompleted : Nat := 500

/-- Modelled from the spec: `NewFlowInstance(instanceID, flowURI, flow)`
creates a fresh Instance with the given identity and flow definition. -/
def NewFlowInstance (id : String) (flowURI : String) (flow : FlowBehavior) : Instance :=
  { id := id, flowURI := flowURI, beh := flow }

/-- Modelled from the spec: `Instance.Restart(newId, flowProvider)` assigns
the new identifier and re-attaches the flow definition to the same
instance. -/
def Instance.Restart (inst : Instance) (newId : String) : Instance :=
  { inst with id := newId }

/-- The `Ao*` operation codes (Go iota constants). -/
def AoStart : Int := 0

/-- Constant `AoResume = 1`. -/
def AoResume : Int := 1

/-- Constant `AoRestart = 2`. -/
def AoRestart : Int := 2

/-- Constant `ActionType`, the name/type of the FlowAction. -/
def ActionType : String := "flow"

/-- Structure `ActionOptions` — the options for the FlowAction.  `MaxStepCount` is a
Go `int`, embedded as `Int`. -/
structure ActionOptions where
  MaxStepCount : Int
  Record : Bool
deriving DecidableEq, Repr

/-- The state recorder collaborator.  `snapshotOutcome n` / `stepOutcome n`
tell whether the `RecordSnapshot` / `RecordStep` call made after step `n`
returns normally (`true`) or raises an unexpected fault (`false`). -/
structure StateRecorder where
  snapshotOutcome : Nat → Bool
  stepOutcome : Nat → Bool

/-- Structure `FlowAction` — an Action that executes a flow.  The flow provider is
embedded as its `GetFlow` function `uri ↦ Option FlowBehavior`; the state
recorder is `none` when the Go `stateRecorder` is nil. -/
structure FlowAction where
  stateRecorder : Option StateRecorder
  flowProvider : String → Option FlowBehavior
  options : ActionOptions

/-- Constructor `NewFlowAction(flowProvider, stateRecorder, options)`.  The Go code
fixes the caller's `*ActionOptions` up in place: a nil pointer is replaced
by `&ActionOptions{Record: true}` (so `MaxStepCount` is the zero value `0`),
a `MaxStepCount < 1` becomes `int(^uint16(0)) = 65535`, and `Record` becomes
`(stateRecorder != nil) && Record`.  The second component of the result is
the caller-visible pointee after the call (`none` when the caller passed
nil, in which case the fresh struct is private to the action): the fix-ups
alias the caller's value, so it equals the options stored in the action. -/
def NewFlowAction (flowProvider : String → Option FlowBehavior)
    (stateRecorder : Option StateRecorder) (options0 : Option ActionOptions) :
    FlowAction × Option ActionOptions :=
  let o1 : ActionOptions :=
    match options0 with
    | none => { MaxStepCount := 0, Record := true }
    | some o => o
  let o2 : ActionOptions :=
    if o1.MaxStepCount < 1 then { o1 with MaxStepCount := 65535 } else o1
  let o3 : ActionOptions := { o2 with Record := stateRecorder.isSome && o2.Record }
  ({ stateRecorder := stateRecorder, flowProvider := flowProvider, options := o3 },
   match options0 with
   | none => none
   | some _ => some o3)

/-- Opaque instance-level execution overrides (`*ExecOptions`); `Run` only
tests the pointer for nil and hands it to `applyExecOptions`. -/
def ExecOptions : Type := Unit

/-- Structure `RunOptions` — the options when running a FlowAction. -/
structure RunOptions where
  Op : Int
  ReturnID : Bool
  InitialState : Option Instance
  ExecOptions : Option ExecOptions

/-- An operation `Run` performs on the Instance during its synchronous
phase, recorded as a trace event. -/
inductive InstOp where
  /-- Call `NewFlowInstance(instanceID, uri, flow)` happened. -/
  | newInstance (id : String) (uri : String)
  /-- Call `instance.Restart(instanceID, flowProvider)` happened. -/
  | restart (newId : String)
  /-- Call `applyExecOptions(instance, ao.ExecOptions)` happened. -/
  | applyExecOptions
  /-- Call `instance.Start(triggerAttrs)` happened. -/
  | start (attrs : List TriggerAttr)
  /-- Call `instance.UpdateAttrs(triggerAttrs)` happened. -/
  | updateAttrs (attrs : List TriggerAttr)
  /-- Call `instance.SetReplyHandler(...)` happened. -/
  | setReplyHandler
deriving DecidableEq, Repr

/-- The synchronous validation errors `Run` can return. -/
inductive RunError where
  /-- Error `fmt.Errorf("Flow [%s] not found", uri)`. -/
  | flowNotFound (uri : String)
  /-- Error `errors.New("Unable to resume instance, resume options not provided")`. -/
  | resumeOptionsNotProvided
  /-- Error `errors.New("Unable to restart instance, restart options not provided")`. -/
  | restartOptionsNotProvided
deriving DecidableEq, Repr

/-- The Go error message of a `RunError`. -/
def RunError.message : RunError → String
  | .flowNotFound uri => "Flow [" ++ uri ++ "] not found"
  | .resumeOptionsNotProvided => "Unable to resume instance, resume options not provided"
  | .restartOptionsNotProvided => "Unable to restart instance, restart options not provided"

/-- Outcome of the synchronous part of `Run` (everything before the
goroutine body executes): an error return, a nil-pointer fault (Go panic)
on the caller's path, or a successful return that spawned the step-loop
task for the acquired Instance.  `ops` is the trace of instance operations
performed synchronously, in order. -/
inductive SyncResult where
  /-- Outcome: `Run` returned this error; no task was spawned, no handler call occurs. -/
  | err (e : RunError)
  /-- Outcome: `Run` panicked (nil `*Instance` dereference) after performing `ops`;
  no task was spawned, no handler call occurs. -/
  | panics (ops : List InstOp)
  /-- Outcome: `Run` returned nil after performing `ops` and spawned the step-loop
  task driving `inst`. -/
  | spawned (ops : List InstOp) (inst : Instance)

/-- The effective operation: `op := AoStart`, overwritten by `ao.Op` when
the `options.(*RunOptions)` type assertion succeeds.  A failed assertion
(any non-`*RunOptions` value, nil included) is embedded as `none`. -/
def opOf (oao : Option RunOptions) : Int :=
  match oao with
  | some ao => ao.Op
  | none => AoStart

/-- The trigger attributes read from the context: `trigger.FromContext`
yields the list when present, and the nil slice (embedded as `[]`)
otherwise. -/
def ctxAttrs (ctx : Option (List TriggerAttr)) : List TriggerAttr :=
  match ctx with
  | some attrs => attrs
  | none => []

/-- Result of the `switch op` block of `Run`: either a synchronous halt
(error return or panic) or the acquired instance pointer (possibly nil)
together with the instance operations performed so far. -/
inductive Acquire where
  | halt (r : SyncResult)
  | go (ops : List InstOp) (minst : Option Instance)

/-- The `switch op` block of `Run`.  `AoStart` resolves the flow (failing
with `flowNotFound`), generates an identifier and builds a fresh Instance.
`AoResume`/`AoRestart` take `ao.InitialState`; their `else` arms (assertion
failed) return the missing-options errors — but note `op` can only be
`AoResume`/`AoRestart` when the assertion succeeded.  A nil `InitialState`
is dereferenced immediately (`instance.ID()` in the resume debug log,
`instance.Restart` for restart), which panics.  An unrecognised `op` falls
through the switch with a nil instance. -/
def acquireInstance (fa : FlowAction) (uri : String) (oao : Option RunOptions)
    (nextId : String) : Acquire :=
  if opOf oao = AoStart then
    match fa.flowProvider uri with
    | none => .halt (.err (.flowNotFound uri))
    | some flow => .go [.newInstance nextId uri] (some (NewFlowInstance nextId uri flow))
  else if opOf oao = AoResume then
    match oao with
    | some ao =>
      match ao.InitialState with
      | some inst => .go [] (some inst)
      | none => .halt (.panics [])
    | none => .halt (.err .resumeOptionsNotProvided)
  else if opOf oao = AoRestart then
    match oao with
    | some ao =>
      match ao.InitialState with
      | some inst => .go [.restart nextId] (some (inst.Restart nextId))
      | none => .halt (.panics [])
    | none => .halt (.err .restartOptionsNotProvided)
  else
    .go [] none

/-- The tail of `Run`'s synchronous phase, after the exec-options step:
applies the trigger attributes (`instance.Start` for `AoStart`, otherwise
`instance.UpdateAttrs`), sets the reply handler and spawns the task.  A nil
instance pointer panics here. -/
def finishRun (ctx : Option (List TriggerAttr)) (op : Int) (ops : List InstOp)
    (minst : Option Instance) : SyncResult :=
  match minst with
  | none => .panics ops
  | some inst =>
    let attrs := ctxAttrs ctx
    let ops :=
      ops ++ [if op = AoStart then InstOp.start attrs else InstOp.updateAttrs attrs]
    .spawned (ops ++ [.setReplyHandler]) inst

/-- The synchronous part of `FlowAction.Run(context, uri, options, handler)`:
operation dispatch, instance acquisition, exec-options application, trigger
attribute application, reply-handler installation, task spawn.  `nextId` is
the identifier the (external) generator yields on its next call. -/
def FlowAction.Run (fa : FlowAction) (ctx : Option (List TriggerAttr)) (uri : String)
    (oao : Option RunOptions) (nextId : String) : SyncResult :=
  match acquireInstance fa uri oao nextId with
  | .halt r => r
  | .go ops0 minst =>
    match oao with
    | some ao =>
      if ao.ExecOptions.isSome then
        match minst with
        | none => .panics ops0
        | some _ => finishRun ctx (opOf oao) (ops0 ++ [.applyExecOptions]) minst
      else finishRun ctx (opOf oao) ops0 minst
    | none => finishRun ctx (opOf oao) ops0 minst

/-- Structure `IDResponse` — a response object consisting of an ID. -/
structure IDResponse where
  ID : String
deriving DecidableEq, Repr

/-- An observable action of the spawned task, recorded as a trace event. -/
inductive Event where
  /-- The `n`-th call of `instance.DoStep()` (after `stepCount++`, so `n`
  counts from 1). -/
  | doStep (n : Nat)
  /-- Call `RecordSnapshot(instance)` after step `n` returned normally. -/
  | recordSnapshot (n : Nat)
  /-- Call `RecordStep(instance)` after step `n` returned normally. -/
  | recordStep (n : Nat)
  /-- The `n`-th `DoStep` call raised an unexpected fault. -/
  | stepFault (n : Nat)
  /-- A recorder call after step `n` raised an unexpected fault (or the
  recorder interface was nil). -/
  | recordFault (n : Nat)
  /-- Call `handler.HandleResult(code, &IDResponse{ID: instance.ID()}, nil)`. -/
  | handleResult (code : Int) (resp : IDResponse)
  /-- The read `ao.ReturnID` dereferenced a nil `*RunOptions`. -/
  | nilDeref
  /-- Call `handler.Done()` (the deferred call). -/
  | done
deriving DecidableEq, Repr

/-- The step loop of the spawned task:
`for hasWork && instance.Status() < StatusCompleted && stepCount < MaxStepCount`.
Each iteration increments `stepCount`, calls `DoStep`, and, when `record`
is set, calls `RecordSnapshot` then `RecordStep`.  Returns the final
`stepCount`, the event trace, and whether the loop was aborted by an
unexpected fault. -/
def stepLoop (inst : Instance) (recorder : Option StateRecorder) (record : Bool)
    (max : Int) (hasWork : Bool) (stepCount : Nat) : Nat × List Event × Bool :=
  if h : hasWork = true ∧ inst.beh.status stepCount < StatusCompleted ∧
      (stepCount : Int) < max then
    match inst.beh.stepOutcome stepCount with
    | none => (stepCount + 1, [.doStep (stepCount + 1), .stepFault (stepCount + 1)], true)
    | some hw =>
      if record then
        match recorder with
        | none =>
          (stepCount + 1, [.doStep (stepCount + 1), .recordFault (stepCount + 1)], true)
        | some r =>
          if r.snapshotOutcome (stepCount + 1) then
            if r.stepOutcome (stepCount + 1) then
              let rest := stepLoop inst recorder record max hw (stepCount + 1)
              (rest.1,
               .doStep (stepCount + 1) :: .recordSnapshot (stepCount + 1) ::
                 .recordStep (stepCount + 1) :: rest.2.1,
               rest.2.2)
            else
              (stepCount + 1,
               [.doStep (stepCount + 1), .recordSnapshot (stepCount + 1),
                .recordFault (stepCount + 1)], true)
          else
            (stepCount + 1, [.doStep (stepCount + 1), .recordFault (stepCount + 1)], true)
      else
        let rest := stepLoop inst recorder record max hw (stepCount + 1)
        (rest.1, .doStep (stepCount + 1) :: rest.2.1, rest.2.2)
  else
    (stepCount, [], false)
termination_by (max - (stepCount : Int)).toNat
decreasing_by
  all_goals omega

/-- The step loop with the `FlowAction`'s own recorder, recording flag and
step ceiling, started as the goroutine starts it (`hasWork = true`,
`stepCount = 0`). -/
def loopResult (fa : FlowAction) (inst : Instance) : Nat × List Event × Bool :=
  stepLoop inst fa.stateRecorder fa.options.Record fa.options.MaxStepCount true 0

/-- The body of the spawned goroutine, minus the deferred `Done`: the step
loop, then — unless the loop aborted with a fault — the `ao.ReturnID` read
(a nil dereference when `options` was not a `*RunOptions`) and the
conditional `HandleResult` delivery of the `IDResponse`. -/
def taskBody (fa : FlowAction) (oao : Option RunOptions) (inst : Instance) :
    List Event :=
  let r := loopResult fa inst
  if r.2.2 then r.2.1
  else
    match oao with
    | none => r.2.1 ++ [.nilDeref]
    | some ao =>
      r.2.1 ++ (if ao.ReturnID then [.handleResult 200 { ID := inst.id }] else [])

/-- The full trace of the spawned task: the goroutine body followed by the
deferred `handler.Done()`, which Go runs on every exit path, normal or
panicking. -/
def runTask (fa : FlowAction) (oao : Option RunOptions) (inst : Instance) :
    List Event :=
  taskBody fa oao inst ++ [.done]

/-- Is this event a `DoStep` call?  (A faulting call still happened.) -/
def isDoStep : Event → Bool
  | .doStep _ => true
  | .stepFault _ => false
  | _ => false

/-- The number of `DoStep` calls in a trace: each call is recorded as one
`doStep` event (a call that then faulted contributes its `doStep` event
too). -/
def countDoStep (evs : List Event) : Nat := evs.countP isDoStep

/-- Is this event a call on the state recorder (including one that
faulted)? -/
def isRecorderCall : Event → Bool
  | .recordSnapshot _ => true
  | .recordStep _ => true
  | .recordFault _ => true
  | _ => false

/-- Is this event `handler.Done()`? -/
def isDone : Event → Bool
  | .done => true
  | _ => false

/-- Is this event a `HandleResult` delivery of an `IDResponse`? -/
def isHandleResult : Event → Bool
  | .handleResult _ _ => true
  | _ => false

/-- Is this sync-phase operation `instance.Start`? -/
def isStartOp : InstOp → Bool
  | .start _ => true
  | _ => false

/-- Is this sync-phase operation `instance.UpdateAttrs`? -/
def isUpdateAttrsOp : InstOp → Bool
  | .updateAttrs _ => true
  | _ => false

/-- Is this event one the step loop itself can emit (a `DoStep` call, a
recorder call, or a fault in one of those)? -/
def isLoopEvent : Event → Bool
  | .doStep _ => true
  | .recordSnapshot _ => true
  | .recordStep _ => true
  | .stepFault _ => true
  | .recordFault _ => true
  | _ => false

/-- Core bookkeeping of one `stepLoop` run: the final `stepCount` never
decreases, the number of `DoStep` calls equals the number of increments,
the final `stepCount` stays within the ceiling (unless no iteration ran),
every emitted event is a loop event, and with recording off no recorder
call is emitted. -/
theorem stepLoop_spec (inst : Instance) (recorder : Option StateRecorder) (record : Bool)
    (max : Int) (hasWork : Bool) (stepCount : Nat) :
    stepCount ≤ (stepLoop inst recorder record max hasWork stepCount).1 ∧
      countDoStep (stepLoop inst recorder record max hasWork stepCount).2.1 =
        (stepLoop inst recorder record max hasWork stepCount).1 - stepCount ∧
      ((stepLoop inst recorder record max hasWork stepCount).1 = stepCount ∨
        ((stepLoop inst recorder record max hasWork stepCount).1 : Int) ≤ max) ∧
      (∀ e ∈ (stepLoop inst recorder record max hasWork stepCount).2.1,
        isLoopEvent e = true) ∧
      (record = false →
        ∀ e ∈ (stepLoop inst recorder record max hasWork stepCount).2.1,
          isRecorderCall e = false) := by
  induction hasWork, stepCount using stepLoop.induct inst recorder record max with
  | case1 hasWork stepCount hg hso =>
    have h3 := hg.2.2
    rw [stepLoop, dif_pos hg, hso]
    simp [countDoStep, isDoStep, isLoopEvent, isRecorderCall]
    omega
  | case2 hasWork stepCount hg hw hso hrec hnone =>
    have h3 := hg.2.2
    rw [stepLoop, dif_pos hg, hso, hrec, hnone]
    simp [countDoStep, isDoStep, isLoopEvent, isRecorderCall]
    omega
  | case3 hasWork stepCount hg hw hso hrec r hr hsnap hstep ih =>
    have h3 := hg.2.2
    rw [hrec, hr] at ih ⊢
    obtain ⟨ih1, ih2, ih3, ih4, -⟩ := ih
    rw [stepLoop, dif_pos hg, hso]
    dsimp only
    simp only [if_true]
    rw [if_pos hsnap, if_pos hstep]
    refine ⟨by simp; omega, ?_, by simp; omega, ?_, by simp⟩
    · simp only [countDoStep, List.countP_cons] at ih2 ⊢
      simp [isDoStep]
      omega
    · simp only [List.mem_cons, forall_eq_or_imp]
      exact ⟨rfl, rfl, rfl, ih4⟩
  | case4 hasWork stepCount hg hw hso hrec r hr hsnap hstep =>
    have h3 := hg.2.2
    rw [Bool.not_eq_true] at hstep
    rw [stepLoop, dif_pos hg, hso, hrec, hr]
    dsimp only
    rw [if_pos hsnap, hstep]
    simp [countDoStep, isDoStep, isLoopEvent, isRecorderCall]
    omega
  | case5 hasWork stepCount hg hw hso hrec r hr hsnap =>
    have h3 := hg.2.2
    rw [Bool.not_eq_true] at hsnap
    rw [stepLoop, dif_pos hg, hso, hrec, hr]
    dsimp only
    rw [hsnap]
    simp [countDoStep, isDoStep, isLoopEvent, isRecorderCall]
    omega
  | case6 hasWork stepCount hg hw hso hrec ih =>
    have h3 := hg.2.2
    rw [Bool.not_eq_true] at hrec
    rw [hrec] at ih ⊢
    obtain ⟨ih1, ih2, ih3, ih4, ih5⟩ := ih
    rw [stepLoop, dif_pos hg, hso]
    dsimp only
    rw [if_neg Bool.false_ne_true]
    refine ⟨by simp; omega, ?_, by simp; omega, ?_, ?_⟩
    · simp only [countDoStep, List.countP_cons] at ih2 ⊢
      simp [isDoStep]
      omega
    · dsimp only
      simp only [List.mem_cons, forall_eq_or_imp]
      exact ⟨rfl, ih4⟩
    · intro hf
      dsimp only
      simp only [List.mem_cons, forall_eq_or_imp]
      exact ⟨rfl, ih5 rfl⟩
  | case7 hasWork stepCount hg =>
    rw [stepLoop, dif_neg hg]
    simp [countDoStep]

/-- The pair of checkpoint calls made after completed step `n`, preceded by
the step itself: snapshot first, step record second. -/
def checkpointBlock (n : Nat) : List Event :=
  [.doStep n, .recordSnapshot n, .recordStep n]

/-- With recording on, a recorder present, and no faults anywhere, the loop
trace is exactly one `checkpointBlock` per step, in step order: every
completed step is followed by exactly one `RecordSnapshot` and then one
`RecordStep`, never reordered or batched. -/
theorem stepLoop_checkpointBlocks (inst : Instance) (r : StateRecorder) (max : Int)
    (hsnap : ∀ n, r.snapshotOutcome n = true) (hstepr : ∀ n, r.stepOutcome n = true)
    (hsome : ∀ n, (inst.beh.stepOutcome n).isSome = true)
    (hasWork : Bool) (stepCount : Nat) :
    ∃ f, stepLoop inst (some r) true max hasWork stepCount =
      (f, (List.range' (stepCount + 1) (f - stepCount)).flatMap checkpointBlock, false) := by
  induction hasWork, stepCount using stepLoop.induct inst (some r) true max with
  | case1 hasWork stepCount hg hso =>
    have h := hsome stepCount
    rw [hso] at h
    simp at h
  | case2 hasWork stepCount hg hw hso hrec hnone =>
    simp at hnone
  | case3 hasWork stepCount hg hw hso hrec r1 hr hsnap1 hstep1 ih =>
    obtain rfl : r1 = r := by injection hr with h; exact h.symm
    obtain ⟨f, hf⟩ := ih
    have hle := (stepLoop_spec inst (some r1) true max hw (stepCount + 1)).1
    rw [hf] at hle
    refine ⟨f, ?_⟩
    have hunf : stepLoop inst (some r1) true max hasWork stepCount =
        ((stepLoop inst (some r1) true max hw (stepCount + 1)).1,
         Event.doStep (stepCount + 1) :: Event.recordSnapshot (stepCount + 1) ::
           Event.recordStep (stepCount + 1) ::
             (stepLoop inst (some r1) true max hw (stepCount + 1)).2.1,
         (stepLoop inst (some r1) true max hw (stepCount + 1)).2.2) := by
      rw [stepLoop, dif_pos hg, hso]
      dsimp only
      simp only [if_true]
      rw [if_pos hsnap1, if_pos hstep1]
    rw [hunf, hf]
    dsimp only
    have hsub : f - stepCount = (f - (stepCount + 1)) + 1 := by omega
    rw [hsub, List.range'_succ stepCount.succ (f - (stepCount + 1)) 1, List.flatMap_cons]
    rfl
  | case4 hasWork stepCount hg hw hso hrec r1 hr hsnap1 hstep1 =>
    obtain rfl : r1 = r := by injection hr with h; exact h.symm
    exact absurd (hstepr (stepCount + 1)) hstep1
  | case5 hasWork stepCount hg hw hso hrec r1 hr hsnap1 =>
    obtain rfl : r1 = r := by injection hr with h; exact h.symm
    exact absurd (hsnap (stepCount + 1)) hsnap1
  | case6 hasWork stepCount hg hw hso hrec ih =>
    exact absurd rfl hrec
  | case7 hasWork stepCount hg =>
    refine ⟨stepCount, ?_⟩
    rw [stepLoop, dif_neg hg]
    simp

/-- A loop event is not `done`, not a `HandleResult` delivery and not the
`nilDeref` fault. -/
theorem isLoopEvent_classify (e : Event) (h : isLoopEvent e = true) :
    isDone e = false ∧ isHandleResult e = false ∧ e ≠ Event.nilDeref := by
  cases e <;> simp_all [isLoopEvent, isDone, isHandleResult]

/-- The goroutine body is the loop trace followed by a tail (the `ReturnID`
read and result delivery) that contains no `done`, no `DoStep` call and no
recorder call. -/
theorem taskBody_shape (fa : FlowAction) (oao : Option RunOptions) (inst : Instance) :
    ∃ tail, taskBody fa oao inst = (loopResult fa inst).2.1 ++ tail ∧
      ∀ e ∈ tail, isDone e = false ∧ isDoStep e = false ∧ isRecorderCall e = false := by
  unfold taskBody
  cases hfl : (loopResult fa inst).2.2
  · cases oao with
    | none =>
      refine ⟨[Event.nilDeref], ?_, ?_⟩
      · simp [hfl]
      · intro e he
        simp only [List.mem_singleton] at he
        subst he
        exact ⟨rfl, rfl, rfl⟩
    | some ao =>
      cases hri : ao.ReturnID
      · refine ⟨[], ?_, ?_⟩
        · simp [hfl, hri]
        · simp
      · refine ⟨[Event.handleResult 200 { ID := inst.id }], ?_, ?_⟩
        · simp [hfl, hri]
        · intro e he
          simp only [List.mem_singleton] at he
          subst he
          exact ⟨rfl, rfl, rfl⟩
  · refine ⟨[], ?_, ?_⟩
    · simp [hfl]
    · simp

/-- The goroutine body emits the same `DoStep` calls as the loop: the
post-loop tail performs none. -/
theorem countDoStep_taskBody (fa : FlowAction) (oao : Option RunOptions) (inst : Instance) :
    countDoStep (taskBody fa oao inst) = countDoStep (loopResult fa inst).2.1 := by
  obtain ⟨tail, htb, htail⟩ := taskBody_shape fa oao inst
  rw [htb]
  unfold countDoStep
  rw [List.countP_append]
  have : tail.countP isDoStep = 0 :=
    List.countP_eq_zero.mpr fun e he => by simp [(htail e he).2.1]
  omega

/-- The goroutine body never emits `done`: the completion signal comes only
from the deferred call. -/
theorem isDone_taskBody (fa : FlowAction) (oao : Option RunOptions) (inst : Instance) :
    ∀ e ∈ taskBody fa oao inst, isDone e = false := by
  have hloop : ∀ e ∈ (loopResult fa inst).2.1, isLoopEvent e = true :=
    (stepLoop_spec inst fa.stateRecorder fa.options.Record
      fa.options.MaxStepCount true 0).2.2.2.1
  obtain ⟨tail, htb, htail⟩ := taskBody_shape fa oao inst
  intro e he
  rw [htb] at he
  rcases List.mem_append.mp he with h1 | h1
  · exact (isLoopEvent_classify e (hloop e h1)).1
  · exact (htail e h1).1

/-- Lemma: `acquireInstance` halts with an error only on the `AoStart` path with an
unresolvable URI. -/
theorem acquireInstance_err (fa : FlowAction) (uri : String) (oao : Option RunOptions)
    (nextId : String) (e : RunError)
    (h : acquireInstance fa uri oao nextId = Acquire.halt (SyncResult.err e)) :
    e = RunError.flowNotFound uri ∧ opOf oao = AoStart ∧ fa.flowProvider uri = none := by
  unfold acquireInstance at h
  repeat' split at h
  all_goals simp_all [opOf, AoStart, AoResume, AoRestart]

/-- The only error `Run` can return is `flowNotFound`, and only on the
`AoStart` path with an unresolvable URI: the `op` dispatch sets a non-Start
operation only when the `*RunOptions` assertion succeeded, so the
missing-options error arms are unreachable. -/
theorem run_err_inversion (fa : FlowAction) (ctx : Option (List TriggerAttr))
    (uri : String) (oao : Option RunOptions) (nextId : String) (e : RunError)
    (h : fa.Run ctx uri oao nextId = SyncResult.err e) :
    e = RunError.flowNotFound uri ∧ opOf oao = AoStart ∧ fa.flowProvider uri = none := by
  unfold FlowAction.Run at h
  cases hacq : acquireInstance fa uri oao nextId with
  | halt r =>
    rw [hacq] at h
    dsimp only at h
    subst h
    exact acquireInstance_err fa uri oao nextId e hacq
  | go ops0 minst =>
    rw [hacq] at h
    dsimp only at h
    exfalso
    unfold finishRun at h
    repeat' split at h
    all_goals simp_all

/-- C4: a Start invocation whose URI resolves to no flow returns the
flow-not-found error synchronously; the `err` outcome spawns no task and
performs no handler call. -/
theorem run_start_flowNotFound (fa : FlowAction) (ctx : Option (List TriggerAttr))
    (uri : String) (oao : Option RunOptions) (nextId : String)
    (hop : opOf oao = AoStart) (hp : fa.flowProvider uri = none) :
    fa.Run ctx uri oao nextId = SyncResult.err (RunError.flowNotFound uri) := by
  unfold FlowAction.Run acquireInstance
  rw [if_pos hop, hp]

/-- Provider used by several witnesses: no URI resolves. -/
def wProviderNone : String → Option FlowBehavior := fun _ => none

/-- Witness for C4 at a concrete input. -/
theorem run_start_flowNotFound_witness :
    opOf none = AoStart ∧ wProviderNone "order-flow" = none ∧
      FlowAction.Run
        { stateRecorder := none, flowProvider := wProviderNone,
          options := { MaxStepCount := 65535, Record := false } }
        none "order-flow" none "id-1" =
        SyncResult.err (RunError.flowNotFound "order-flow") :=
  ⟨rfl, rfl,
   run_start_flowNotFound
     { stateRecorder := none, flowProvider := wProviderNone,
       options := { MaxStepCount := 65535, Record := false } }
     none "order-flow" none "id-1" rfl rfl⟩

/-- A FlowAction used by the C3 counterexample. -/
def c3Action : FlowAction := (NewFlowAction wProviderNone none none).1

/-- RunOptions requesting Resume with no prior instance supplied. -/
def c3RunOptions : RunOptions :=
  { Op := AoResume, ReturnID := false, InitialState := none, ExecOptions := none }

/-- C3 counterexample: a Resume invocation without `InitialState` does not
return the missing-resume-state error — `Run` dereferences the nil instance
(panics) instead. -/
theorem run_missing_state_counterexample :
    c3Action.Run none "order-flow" (some c3RunOptions) "id-1" = SyncResult.panics [] ∧
      c3Action.Run none "order-flow" (some c3RunOptions) "id-1" ≠
        SyncResult.err RunError.resumeOptionsNotProvided :=
  ⟨rfl, fun h => nomatch h⟩

/-- C3 amended: a Resume/Restart invocation without the prior Instance
panics synchronously with a nil dereference (no task spawned, no handler
call, no error returned); the missing-state errors are unreachable — any
error `Run` returns is `flowNotFound`. -/
theorem run_missing_state_panics (fa : FlowAction) (ctx : Option (List TriggerAttr))
    (uri : String) (ao : RunOptions) (nextId : String)
    (hop : ao.Op = AoResume ∨ ao.Op = AoRestart) (hinit : ao.InitialState = none) :
    fa.Run ctx uri (some ao) nextId = SyncResult.panics [] ∧
      ∀ (oao' : Option RunOptions) (e : RunError),
        fa.Run ctx uri oao' nextId = SyncResult.err e → e = RunError.flowNotFound uri := by
  constructor
  · rcases hop with h | h <;>
      simp [FlowAction.Run, acquireInstance, opOf, h, hinit, AoStart, AoResume, AoRestart]
  · intro oao' e h
    exact (run_err_inversion fa ctx uri oao' nextId e h).1

/-- Witness for the amended C3 at a concrete input. -/
theorem run_missing_state_panics_witness :
    (c3RunOptions.Op = AoResume ∨ c3RunOptions.Op = AoRestart) ∧
      c3RunOptions.InitialState = none ∧
      c3Action.Run none "order-flow" (some c3RunOptions) "id-1" = SyncResult.panics [] :=
  ⟨Or.inl rfl, rfl,
   (run_missing_state_panics c3Action none "order-flow" c3RunOptions "id-1"
     (Or.inl rfl) rfl).1⟩

/-- C6: constructing with a non-positive `MaxStepCount`, or with no options
at all, yields the effective step bound `int(^uint16(0)) = 65535`. -/
theorem newFlowAction_default_bound (provider : String → Option FlowBehavior)
    (recorder : Option StateRecorder) (opts : Option ActionOptions)
    (h : opts = none ∨ ∃ o, opts = some o ∧ o.MaxStepCount < 1) :
    ((NewFlowAction provider recorder opts).1).options.MaxStepCount = 65535 := by
  rcases h with rfl | ⟨o, rfl, ho⟩
  · rfl
  · simp [NewFlowAction, if_pos ho]

/-- Witness for C6 at concrete inputs: absent options and a zero bound. -/
theorem newFlowAction_default_bound_witness :
    ((none : Option ActionOptions) = none ∨
        ∃ o, (none : Option ActionOptions) = some o ∧ o.MaxStepCount < 1) ∧
      ((NewFlowAction wProviderNone none none).1).options.MaxStepCount = 65535 ∧
      ((NewFlowAction wProviderNone none
          (some { MaxStepCount := 0, Record := true })).1).options.MaxStepCount = 65535 :=
  ⟨Or.inl rfl,
   newFlowAction_default_bound wProviderNone none none (Or.inl rfl),
   newFlowAction_default_bound wProviderNone none
     (some { MaxStepCount := 0, Record := true })
     (Or.inr ⟨{ MaxStepCount := 0, Record := true }, rfl, by decide⟩)⟩

/-- C10: `NewFlowAction` mutates the caller-supplied options in place — the
caller's value afterwards has `MaxStepCount` replaced by 65535 exactly when
it was below 1 and `Record` masked by recorder presence (so forced `false`
with no recorder, unchanged otherwise), and it is the very value the action
stores (aliasing). -/
theorem newFlowAction_mutates_caller_options (provider : String → Option FlowBehavior)
    (recorder : Option StateRecorder) (o : ActionOptions) :
    (NewFlowAction provider recorder (some o)).2 =
      some { MaxStepCount := if o.MaxStepCount < 1 then 65535 else o.MaxStepCount,
             Record := recorder.isSome && o.Record } ∧
    (NewFlowAction provider recorder (some o)).2 =
      some ((NewFlowAction provider recorder (some o)).1).options := by
  constructor
  · by_cases h : o.MaxStepCount < 1 <;> simp [NewFlowAction, h]
  · rfl

/-- The flow behaviour used by the spawn witnesses: status stays active,
three steps report work and the fourth reports none. -/
def wFlow : FlowBehavior :=
  { status := fun _ => 100, stepOutcome := fun k => if k < 2 then some true else some false }

/-- A provider resolving every URI to `wFlow`. -/
def wProvider : String → Option FlowBehavior := fun _ => some wFlow

/-- A recorder whose calls all return normally. -/
def wRecorder : StateRecorder :=
  { snapshotOutcome := fun _ => true, stepOutcome := fun _ => true }

/-- The FlowAction the spawn witnesses run (recorder present, no options
supplied, so `MaxStepCount = 65535` and `Record = true`). -/
def wAction : FlowAction := (NewFlowAction wProvider (some wRecorder) none).1

/-- The Instance `wAction.Run` builds for URI `"order-flow"` and generated
identifier `"id-0"`. -/
def wInst : Instance := NewFlowInstance "id-0" "order-flow" wFlow

/-- The synchronous operation trace of a fresh Start on `wAction`. -/
def wOps : List InstOp :=
  [.newInstance "id-0" "order-flow", .start [], .setReplyHandler]

/-- C1: for a FlowAction constructed with effective step bound `N > 0` and
an invocation that passes synchronous validation, the spawned task performs
at most `N` `DoStep` calls. -/
theorem run_step_budget (provider : String → Option FlowBehavior)
    (recorder : Option StateRecorder) (opts : Option ActionOptions)
    (fa : FlowAction) (ctx : Option (List TriggerAttr)) (uri : String)
    (oao : Option RunOptions) (nextId : String) (ops : List InstOp) (inst : Instance)
    (hfa : fa = (NewFlowAction provider recorder opts).1)
    (hN : 0 < fa.options.MaxStepCount)
    (hrun : fa.Run ctx uri oao nextId = SyncResult.spawned ops inst) :
    countDoStep (runTask fa oao inst) ≤ fa.options.MaxStepCount.toNat := by
  obtain ⟨h1, h2, h3, -, -⟩ := stepLoop_spec inst fa.stateRecorder fa.options.Record
    fa.options.MaxStepCount true 0
  have hrt : countDoStep (runTask fa oao inst) = countDoStep (taskBody fa oao inst) := by
    unfold runTask countDoStep
    rw [List.countP_append]
    simp [isDoStep]
  rw [hrt, countDoStep_taskBody]
  unfold loopResult
  omega

/-- Witness for C1 at a concrete input. -/
theorem run_step_budget_witness :
    wAction = (NewFlowAction wProvider (some wRecorder) none).1 ∧
      0 < wAction.options.MaxStepCount ∧
      wAction.Run none "order-flow" none "id-0" = SyncResult.spawned wOps wInst ∧
      countDoStep (runTask wAction none wInst) ≤ wAction.options.MaxStepCount.toNat :=
  ⟨rfl, by decide, rfl,
   run_step_budget wProvider (some wRecorder) none wAction none "order-flow" none "id-0"
     wOps wInst rfl (by decide) rfl⟩

/-- C2: for every invocation that passes synchronous validation, the
task's trace delivers `Done` exactly once, as its final event — on every
exit path, including a fault in `DoStep` or in a recorder call. -/
theorem run_done_exactly_once (fa : FlowAction) (ctx : Option (List TriggerAttr))
    (uri : String) (oao : Option RunOptions) (nextId : String)
    (ops : List InstOp) (inst : Instance)
    (hrun : fa.Run ctx uri oao nextId = SyncResult.spawned ops inst) :
    (runTask fa oao inst).countP isDone = 1 ∧
      (runTask fa oao inst).getLast? = some Event.done := by
  constructor
  · unfold runTask
    rw [List.countP_append]
    have h0 : (taskBody fa oao inst).countP isDone = 0 :=
      List.countP_eq_zero.mpr fun e he => by simp [isDone_taskBody fa oao inst e he]
    simp [h0, isDone]
  · unfold runTask
    exact List.getLast?_concat _

/-- Witness for C2 at a concrete input. -/
theorem run_done_exactly_once_witness :
    wAction.Run none "order-flow" none "id-0" = SyncResult.spawned wOps wInst ∧
      (runTask wAction none wInst).countP isDone = 1 ∧
      (runTask wAction none wInst).getLast? = some Event.done :=
  ⟨rfl, run_done_exactly_once wAction none "order-flow" none "id-0" wOps wInst rfl⟩

/-- C5: recording is effective iff it was requested and a recorder was
supplied at construction; when not effective the whole task performs zero
recorder calls; when effective (and no call faults) the loop trace is
exactly one snapshot-then-step checkpoint block per completed step, in step
order. -/
theorem run_conditional_checkpointing (provider : String → Option FlowBehavior)
    (recorder : Option StateRecorder) (opts : Option ActionOptions)
    (fa : FlowAction) (ctx : Option (List TriggerAttr)) (uri : String)
    (oao : Option RunOptions) (nextId : String) (ops : List InstOp) (inst : Instance)
    (hfa : fa = (NewFlowAction provider recorder opts).1)
    (hrun : fa.Run ctx uri oao nextId = SyncResult.spawned ops inst) :
    fa.options.Record =
      (recorder.isSome && (match opts with | some o => o.Record | none => true)) ∧
    (fa.options.Record = false →
      ∀ e ∈ runTask fa oao inst, isRecorderCall e = false) ∧
    (∀ r, fa.stateRecorder = some r → fa.options.Record = true →
      (∀ n, r.snapshotOutcome n = true) → (∀ n, r.stepOutcome n = true) →
      (∀ n, (inst.beh.stepOutcome n).isSome = true) →
      ∃ f, loopResult fa inst =
        (f, (List.range' 1 f).flatMap checkpointBlock, false)) := by
  refine ⟨?_, ?_, ?_⟩
  · subst hfa
    cases opts with
    | none => simp [NewFlowAction]
    | some o => by_cases h : o.MaxStepCount < 1 <;> simp [NewFlowAction, h]
  · intro hrec e he
    unfold runTask at he
    rcases List.mem_append.mp he with h1 | h1
    · obtain ⟨tail, htb, htail⟩ := taskBody_shape fa oao inst
      rw [htb] at h1
      rcases List.mem_append.mp h1 with h2 | h2
      · have hloop : ∀ e ∈ (loopResult fa inst).2.1, isRecorderCall e = false :=
          (stepLoop_spec inst fa.stateRecorder fa.options.Record
            fa.options.MaxStepCount true 0).2.2.2.2 hrec
        exact hloop e h2
      · exact (htail e h2).2.2
    · simp only [List.mem_singleton] at h1
      subst h1
      rfl
  · intro r hsr hrec hsnap hstepr hsome
    unfold loopResult
    rw [hsr, hrec]
    obtain ⟨f, hf⟩ :=
      stepLoop_checkpointBlocks inst r fa.options.MaxStepCount hsnap hstepr hsome true 0
    refine ⟨f, ?_⟩
    rw [hf]
    simp

/-- Witness for C5 at a concrete input (recorder present, recording on). -/
theorem run_conditional_checkpointing_witness :
    wAction = (NewFlowAction wProvider (some wRecorder) none).1 ∧
      wAction.Run none "order-flow" none "id-0" = SyncResult.spawned wOps wInst ∧
      (∃ f, loopResult wAction wInst =
        (f, (List.range' 1 f).flatMap checkpointBlock, false)) := by
  refine ⟨rfl, rfl, ?_⟩
  obtain ⟨-, -, h3⟩ := run_conditional_checkpointing wProvider (some wRecorder) none
    wAction none "order-flow" none "id-0" wOps wInst rfl rfl
  refine h3 wRecorder rfl rfl (fun _ => rfl) (fun _ => rfl) (fun n => ?_)
  by_cases h : n < 2 <;> simp [wInst, NewFlowInstance, wFlow, h]

/-- The loop exits at once (zero iterations, no fault) when the status is
already at or past `StatusCompleted`. -/
theorem stepLoop_terminal (inst : Instance) (recorder : Option StateRecorder)
    (record : Bool) (max : Int) (hasWork : Bool) (stepCount : Nat)
    (h : StatusCompleted ≤ inst.beh.status stepCount) :
    stepLoop inst recorder record max hasWork stepCount = (stepCount, [], false) := by
  rw [stepLoop]
  exact dif_neg fun hg => absurd hg.2.1 (by omega)

/-- C7: with `ReturnID` requested and a fault-free loop, the `IDResponse`
carrying exactly the instance identifier is delivered through the handler
exactly once, after the loop and before `Done`; with `ReturnID = false` no
such delivery occurs anywhere in the task. -/
theorem run_returnID_delivery (fa : FlowAction) (ctx : Option (List TriggerAttr))
    (uri : String) (ao : RunOptions) (nextId : String) (ops : List InstOp) (inst : Instance)
    (hrun : fa.Run ctx uri (some ao) nextId = SyncResult.spawned ops inst)
    (hfl : (loopResult fa inst).2.2 = false) :
    (ao.ReturnID = true →
      runTask fa (some ao) inst =
        (loopResult fa inst).2.1 ++
          [Event.handleResult 200 { ID := inst.id }, Event.done] ∧
      ∀ e ∈ (loopResult fa inst).2.1, isHandleResult e = false) ∧
    (ao.ReturnID = false →
      ∀ e ∈ runTask fa (some ao) inst, isHandleResult e = false) := by
  have hloop : ∀ e ∈ (loopResult fa inst).2.1, isLoopEvent e = true :=
    (stepLoop_spec inst fa.stateRecorder fa.options.Record
      fa.options.MaxStepCount true 0).2.2.2.1
  constructor
  · intro hri
    constructor
    · unfold runTask taskBody
      simp [hfl, hri]
    · intro e he
      exact (isLoopEvent_classify e (hloop e he)).2.1
  · intro hri e he
    unfold runTask taskBody at he
    simp [hfl, hri] at he
    rcases he with h1 | h1
    · exact (isLoopEvent_classify e (hloop e h1)).2.1
    · subst h1
      rfl

/-- A flow behaviour whose status is already terminal: the loop exits with
zero steps and no fault. -/
def wFlowDone : FlowBehavior :=
  { status := fun _ => 600, stepOutcome := fun _ => some false }

/-- A provider resolving every URI to `wFlowDone`. -/
def wProviderDone : String → Option FlowBehavior := fun _ => some wFlowDone

/-- A FlowAction with no recorder over `wProviderDone`. -/
def wActionDone : FlowAction := (NewFlowAction wProviderDone none none).1

/-- The Instance `wActionDone.Run` builds for `"order-flow"` / `"id-0"`. -/
def wInstDone : Instance := NewFlowInstance "id-0" "order-flow" wFlowDone

/-- RunOptions requesting Start with `ReturnID = true`. -/
def wRunOptionsID : RunOptions :=
  { Op := AoStart, ReturnID := true, InitialState := none, ExecOptions := none }

/-- The loop over `wInstDone` exits immediately without fault. -/
theorem wInstDone_loop : loopResult wActionDone wInstDone = (0, [], false) := by
  unfold loopResult
  exact stepLoop_terminal _ _ _ _ _ _ (by norm_num [wInstDone, NewFlowInstance, wFlowDone,
    StatusCompleted])

/-- Witness for C7 at a concrete input. -/
theorem run_returnID_delivery_witness :
    wActionDone.Run none "order-flow" (some wRunOptionsID) "id-0" =
        SyncResult.spawned wOps wInstDone ∧
      (loopResult wActionDone wInstDone).2.2 = false ∧
      runTask wActionDone (some wRunOptionsID) wInstDone =
        (loopResult wActionDone wInstDone).2.1 ++
          [Event.handleResult 200 { ID := wInstDone.id }, Event.done] := by
  have hfl : (loopResult wActionDone wInstDone).2.2 = false := by rw [wInstDone_loop]
  exact ⟨rfl, hfl,
    ((run_returnID_delivery wActionDone none "order-flow" wRunOptionsID "id-0" wOps
      wInstDone rfl hfl).1 rfl).1⟩

/-- Lemma: `acquireInstance` performs no attribute application: its `go` traces
contain neither `Start` nor `UpdateAttrs`. -/
theorem acquireInstance_go_ops (fa : FlowAction) (uri : String) (oao : Option RunOptions)
    (nextId : String) (ops0 : List InstOp) (minst : Option Instance)
    (h : acquireInstance fa uri oao nextId = Acquire.go ops0 minst) :
    ops0.countP isStartOp = 0 ∧ ops0.countP isUpdateAttrsOp = 0 := by
  unfold acquireInstance at h
  repeat' split at h
  all_goals injection h
  all_goals subst_vars
  all_goals exact ⟨rfl, rfl⟩

/-- Inversion of a successful `Run`: the spawned trace is the acquisition
trace, then an optional exec-options application, then the attribute
application (`Start` for `AoStart`, `UpdateAttrs` otherwise), then the
reply-handler installation, in that order. -/
theorem run_spawned_shape (fa : FlowAction) (ctx : Option (List TriggerAttr))
    (uri : String) (oao : Option RunOptions) (nextId : String)
    (ops : List InstOp) (inst : Instance)
    (hrun : fa.Run ctx uri oao nextId = SyncResult.spawned ops inst) :
    ∃ ops0 opsExec,
      acquireInstance fa uri oao nextId = Acquire.go ops0 (some inst) ∧
      (opsExec = [] ∨ opsExec = [InstOp.applyExecOptions]) ∧
      ops = (ops0 ++ opsExec) ++
        [if opOf oao = AoStart then InstOp.start (ctxAttrs ctx)
         else InstOp.updateAttrs (ctxAttrs ctx), InstOp.setReplyHandler] := by
  unfold FlowAction.Run at hrun
  cases hacq : acquireInstance fa uri oao nextId with
  | halt r =>
    rw [hacq] at hrun
    dsimp only at hrun
    subst hrun
    exfalso
    unfold acquireInstance at hacq
    repeat' split at hacq
    all_goals simp_all
  | go ops0 minst =>
    rw [hacq] at hrun
    dsimp only at hrun
    cases oao with
    | none =>
      unfold finishRun at hrun
      cases minst with
      | none => exact absurd hrun (by simp)
      | some inst0 =>
        dsimp only at hrun
        injection hrun with h1 h2
        subst h2
        refine ⟨ops0, [], rfl, Or.inl rfl, ?_⟩
        rw [← h1]
        simp
    | some ao =>
      dsimp only at hrun
      by_cases hex : ao.ExecOptions.isSome
      · rw [if_pos hex] at hrun
        cases minst with
        | none => exact absurd hrun (by simp)
        | some inst0 =>
          unfold finishRun at hrun
          dsimp only at hrun
          injection hrun with h1 h2
          subst h2
          refine ⟨ops0, [InstOp.applyExecOptions], rfl, Or.inr rfl, ?_⟩
          rw [← h1]
          simp
      · rw [if_neg hex] at hrun
        unfold finishRun at hrun
        cases minst with
        | none => exact absurd hrun (by simp)
        | some inst0 =>
          dsimp only at hrun
          injection hrun with h1 h2
          subst h2
          refine ⟨ops0, [], rfl, Or.inl rfl, ?_⟩
          rw [← h1]
          simp

/-- C8: the trigger attributes read from the execution context are applied
to the Instance via `Start` (exactly one `Start`, no `UpdateAttrs`) when the
effective op is `AoStart`, and via `UpdateAttrs` (exactly one, no `Start`)
when it is `AoResume` or `AoRestart`. -/
theorem run_attribute_application (fa : FlowAction) (ctx : Option (List TriggerAttr))
    (uri : String) (oao : Option RunOptions) (nextId : String)
    (ops : List InstOp) (inst : Instance)
    (hrun : fa.Run ctx uri oao nextId = SyncResult.spawned ops inst) :
    (opOf oao = AoStart →
      InstOp.start (ctxAttrs ctx) ∈ ops ∧ ops.countP isStartOp = 1 ∧
        ops.countP isUpdateAttrsOp = 0) ∧
    (opOf oao = AoResume ∨ opOf oao = AoRestart →
      InstOp.updateAttrs (ctxAttrs ctx) ∈ ops ∧ ops.countP isUpdateAttrsOp = 1 ∧
        ops.countP isStartOp = 0) := by
  obtain ⟨ops0, opsExec, hacq, hex, hops⟩ :=
    run_spawned_shape fa ctx uri oao nextId ops inst hrun
  obtain ⟨hc1, hc2⟩ := acquireInstance_go_ops fa uri oao nextId ops0 (some inst) hacq
  have hce1 : opsExec.countP isStartOp = 0 := by rcases hex with rfl | rfl <;> rfl
  have hce2 : opsExec.countP isUpdateAttrsOp = 0 := by rcases hex with rfl | rfl <;> rfl
  subst hops
  constructor
  · intro hop
    rw [if_pos hop]
    refine ⟨by simp, ?_, ?_⟩
    · simp [List.countP_append, List.countP_cons, hc1, hce1, isStartOp, isUpdateAttrsOp]
    · simp [List.countP_append, List.countP_cons, hc2, hce2, isStartOp, isUpdateAttrsOp]
  · intro hop
    have hne : ¬(opOf oao = AoStart) := by
      rcases hop with h | h <;> rw [h] <;> decide
    rw [if_neg hne]
    refine ⟨by simp, ?_, ?_⟩
    · simp [List.countP_append, List.countP_cons, hc2, hce2, isStartOp, isUpdateAttrsOp]
    · simp [List.countP_append, List.countP_cons, hc1, hce1, isStartOp, isUpdateAttrsOp]

/-- An instance used as initial state by the C8 witness. -/
def wInstResume : Instance := NewFlowInstance "id-9" "order-flow" wFlowDone

/-- RunOptions requesting Resume of `wInstResume`. -/
def wRunOptionsResume : RunOptions :=
  { Op := AoResume, ReturnID := false, InitialState := some wInstResume,
    ExecOptions := none }

/-- Witness for C8 at a concrete input (a Resume invocation). -/
theorem run_attribute_application_witness :
    wActionDone.Run none "order-flow" (some wRunOptionsResume) "id-1" =
        SyncResult.spawned [InstOp.updateAttrs [], InstOp.setReplyHandler] wInstResume ∧
      (opOf (some wRunOptionsResume) = AoResume ∨
        opOf (some wRunOptionsResume) = AoRestart) ∧
      InstOp.updateAttrs (ctxAttrs none) ∈
        [InstOp.updateAttrs [], InstOp.setReplyHandler] ∧
      ([InstOp.updateAttrs [], InstOp.setReplyHandler] : List InstOp).countP
        isUpdateAttrsOp = 1 ∧
      ([InstOp.updateAttrs [], InstOp.setReplyHandler] : List InstOp).countP
        isStartOp = 0 :=
  ⟨rfl, Or.inl rfl,
   (run_attribute_application wActionDone none "order-flow" (some wRunOptionsResume)
     "id-1" [InstOp.updateAttrs [], InstOp.setReplyHandler] wInstResume rfl).2
     (Or.inl rfl)⟩

/-- C9: with `options` not a `*RunOptions` (e.g. nil), the operation
defaults to Start; when the URI resolves, `Run` reports success and spawns
the task — but the spawned task reads `ao.ReturnID` from the absent
options value, so on a fault-free loop the trace reaches the
nil-dereference fault. -/
theorem run_nil_options_deref (fa : FlowAction) (ctx : Option (List TriggerAttr))
    (uri : String) (nextId : String) (flow : FlowBehavior)
    (hp : fa.flowProvider uri = some flow) :
    fa.Run ctx uri none nextId =
      SyncResult.spawned
        [InstOp.newInstance nextId uri, InstOp.start (ctxAttrs ctx),
         InstOp.setReplyHandler]
        (NewFlowInstance nextId uri flow) ∧
    ((loopResult fa (NewFlowInstance nextId uri flow)).2.2 = false →
      Event.nilDeref ∈ runTask fa none (NewFlowInstance nextId uri flow)) := by
  constructor
  · have h0 : opOf none = AoStart := rfl
    unfold FlowAction.Run acquireInstance finishRun
    rw [if_pos h0, hp]
    rfl
  · intro hfl
    unfold runTask taskBody
    simp [hfl]

/-- Witness for C9 at a concrete input. -/
theorem run_nil_options_deref_witness :
    wActionDone.flowProvider "order-flow" = some wFlowDone ∧
      (loopResult wActionDone wInstDone).2.2 = false ∧
      Event.nilDeref ∈ runTask wActionDone none wInstDone := by
  have hfl : (loopResult wActionDone wInstDone).2.2 = false := by rw [wInstDone_loop]
  exact ⟨rfl, hfl,
    (run_nil_options_deref wActionDone none "order-flow" "id-0" wFlowDone rfl).2 hfl⟩

end Flogo
